import Mathlib

/-!
Verification of the credential-store core of `PasswordManager_Final.py`.

The development shallowly embeds the program:
* `hash_password` — SHA-256 hex digest of the UTF-8 encoding, as in
  `hashlib.sha256(password.encode()).hexdigest()`.
* `validate_password` — the regex `^(?=.*[A-Z])(?=.*\d)(?=.*[@$!%*?&]).{8,}$`
  checked with `re.match`.
* `FilePasswordManager` — JSON-file backed store (dict modelled as an
  association list, the backing file as an optional parse result).
* `DatabasePasswordManager` — SQLite backed store (table modelled as a row
  list in insertion order, `sqlite3.Error` faults injected as a parameter).

Python exceptions are modelled with `Except`; mutation is explicit state
passing.  All definitions are executable.
-/

set_option maxRecDepth 4096

/-! ## SHA-256 (the digest function used by `hash_password`)

A direct implementation of FIPS 180-4 SHA-256 over byte lists, with 32-bit
words represented as `Nat` reduced mod `2^32`.
-/

/-- Reduce to a 32-bit word. -/
def w32 (n : Nat) : Nat := n % 4294967296

/-- Rotate a 32-bit word right by `n` bits. -/
def rotr32 (x n : Nat) : Nat := w32 ((x >>> n) ||| (x <<< (32 - n)))

/-- SHA-256 Σ0. -/
def bigSigma0 (x : Nat) : Nat :=
  (rotr32 x 2) ^^^ ((rotr32 x 13) ^^^ (rotr32 x 22))

/-- SHA-256 Σ1. -/
def bigSigma1 (x : Nat) : Nat :=
  (rotr32 x 6) ^^^ ((rotr32 x 11) ^^^ (rotr32 x 25))

/-- SHA-256 σ0. -/
def smallSigma0 (x : Nat) : Nat :=
  (rotr32 x 7) ^^^ ((rotr32 x 18) ^^^ (x >>> 3))

/-- SHA-256 σ1. -/
def smallSigma1 (x : Nat) : Nat :=
  (rotr32 x 17) ^^^ ((rotr32 x 19) ^^^ (x >>> 10))

/-- SHA-256 Ch. -/
def sha2ch (x y z : Nat) : Nat := (x &&& y) ^^^ ((x ^^^ 4294967295) &&& z)

/-- SHA-256 Maj. -/
def sha2maj (x y z : Nat) : Nat := (x &&& y) ^^^ (x &&& z) ^^^ (y &&& z)

/-- The 64 SHA-256 round constants (decimal). -/
def sha256K : List Nat :=
  [1116352408, 1899447441, 3049323471, 3921009573, 961987163,
   1508970993, 2453635748, 2870763221, 3624381080, 310598401,
   607225278, 1426881987, 1925078388, 2162078206, 2614888103,
   3248222580, 3835390401, 4022224774, 264347078, 604807628,
   770255983, 1249150122, 1555081692, 1996064986, 2554220882,
   2821834349, 2952996808, 3210313671, 3336571891, 3584528711,
   113926993, 338241895, 666307205, 773529912, 1294757372,
   1396182291, 1695183700, 1986661051, 2177026350, 2456956037,
   2730485921, 2820302411, 3259730800, 3345764771, 3516065817,
   3600352804, 4094571909, 275423344, 430227734, 506948616,
   659060556, 883997877, 958139571, 1322822218, 1537002063,
   1747873779, 1955562222, 2024104815, 2227730452, 2361852424,
   2428436474, 2756734187, 3204031479, 3329325298]

/-- The SHA-256 initial hash value (decimal). -/
def sha256H0 : List Nat :=
  [1779033703, 3144134277, 1013904242, 2773480762,
   1359893119, 2600822924, 528734635, 1541459225]

/-- `k` bytes of `n` in big-endian order. -/
def beBytes : Nat → Nat → List Nat
  | 0, _ => []
  | k + 1, n => beBytes k (n >>> 8) ++ [n &&& 255]

/-- SHA-256 padding: append `0x80`, zeros, then the 64-bit bit length, so the
total length is a multiple of 64 bytes. -/
def padMessage (msg : List Nat) : List Nat :=
  let padZeros := (119 - msg.length % 64) % 64
  msg ++ [128] ++ List.replicate padZeros 0 ++ beBytes 8 (msg.length * 8)

/-- Group bytes into big-endian 32-bit words. -/
def toWords : List Nat → List Nat
  | a :: b :: c :: d :: rest =>
      (a * 16777216 + b * 65536 + c * 256 + d) :: toWords rest
  | _ => []

/-- Extend a 16-word block to the 64-word message schedule. -/
def extendSchedule (w : List Nat) : List Nat :=
  if 64 ≤ w.length then w
  else
    extendSchedule (w ++ [w32 (smallSigma1 (w.getD (w.length - 2) 0) +
      w.getD (w.length - 7) 0 + smallSigma0 (w.getD (w.length - 15) 0) +
      w.getD (w.length - 16) 0)])
termination_by 64 - w.length
decreasing_by simp only [List.length_append, List.length_cons, List.length_nil]; omega

/-- Working state of the SHA-256 compression loop. -/
structure Hash8 where
  a : Nat
  b : Nat
  c : Nat
  d : Nat
  e : Nat
  f : Nat
  g : Nat
  h : Nat
deriving Repr, DecidableEq

/-- One SHA-256 compression round. -/
def sha256Round (kc wc : Nat) (s : Hash8) : Hash8 :=
  let t1 := w32 (s.h + bigSigma1 s.e + sha2ch s.e s.f s.g + kc + wc)
  let t2 := w32 (bigSigma0 s.a + sha2maj s.a s.b s.c)
  ⟨w32 (t1 + t2), s.a, s.b, s.c, w32 (s.d + t1), s.e, s.f, s.g⟩

/-- Run the 64 compression rounds over the constants and schedule. -/
def sha256Rounds : List Nat → List Nat → Hash8 → Hash8
  | kc :: ks, wc :: ws, s => sha256Rounds ks ws (sha256Round kc wc s)
  | _, _, s => s

/-- Compress one 64-byte block into the running hash value. -/
def compressBlock (hs : List Nat) (block : List Nat) : List Nat :=
  let w := extendSchedule (toWords block)
  let s0 : Hash8 := ⟨hs.getD 0 0, hs.getD 1 0, hs.getD 2 0, hs.getD 3 0,
                     hs.getD 4 0, hs.getD 5 0, hs.getD 6 0, hs.getD 7 0⟩
  let s := sha256Rounds sha256K w s0
  [w32 (s0.a + s.a), w32 (s0.b + s.b), w32 (s0.c + s.c), w32 (s0.d + s.d),
   w32 (s0.e + s.e), w32 (s0.f + s.f), w32 (s0.g + s.g), w32 (s0.h + s.h)]

/-- Fold `compressBlock` over the 64-byte blocks of a padded message. -/
def sha256Blocks : List Nat → List Nat → List Nat
  | hs, [] => hs
  | hs, b :: rest =>
      sha256Blocks (compressBlock hs ((b :: rest).take 64)) ((b :: rest).drop 64)
termination_by _ l => l.length
decreasing_by simp only [List.length_drop, List.length_cons]; omega

/-- The lowercase hexadecimal digit for `n < 16`: `0`-`9` then `a`-`f`. -/
def hexDigitChar (n : Nat) : Char :=
  if n < 10 then Char.ofNat (48 + n) else Char.ofNat (87 + n)

/-- A 32-bit word as 8 hex characters, most significant first. -/
def wordToHex (n : Nat) : List Char :=
  (List.range 8).map (fun i => hexDigitChar ((n >>> ((7 - i) * 4)) &&& 15))

/-- SHA-256 of a byte list, as a 64-character lowercase hex string. -/
def sha256Hex (msg : List Nat) : String :=
  ⟨(sha256Blocks sha256H0 (padMessage msg)).flatMap wordToHex⟩

/-- UTF-8 encoding of one character, as in Python `str.encode()`. -/
def utf8EncodeCharBytes (c : Char) : List Nat :=
  let n := c.toNat
  if n < 128 then [n]
  else if n < 2048 then [192 ||| (n >>> 6), 128 ||| (n &&& 63)]
  else if n < 65536 then
    [224 ||| (n >>> 12), 128 ||| ((n >>> 6) &&& 63), 128 ||| (n &&& 63)]
  else
    [240 ||| (n >>> 18), 128 ||| ((n >>> 12) &&& 63),
     128 ||| ((n >>> 6) &&& 63), 128 ||| (n &&& 63)]

/-- UTF-8 bytes of a string, as in Python `password.encode()`. -/
def utf8Bytes (s : String) : List Nat := s.data.flatMap utf8EncodeCharBytes

/-- `hash_password` from the source:
`hashlib.sha256(password.encode()).hexdigest()`. -/
def hash_password (password : String) : String :=
  sha256Hex (utf8Bytes password)

/-! ## The Policy Validator

`validate_password` in the source is
`bool(re.match(r"^(?=.*[A-Z])(?=.*\d)(?=.*[@$!%*?&]).{8,}$", password))`.

Semantics of that regex (Python `re`, no `DOTALL`/`MULTILINE`):
* `.` matches any character except `'\n'`, so each lookahead `(?=.*X)`
  succeeds iff an `X` occurs in the prefix of the string before the first
  `'\n'` (the "first line");
* `.{8,}$` succeeds iff the string is at least 8 characters with no `'\n'`,
  optionally followed by one final `'\n'` (`$` also matches just before a
  trailing newline).

Character classes are modelled over their ASCII members (`[A-Z]`, `[0-9]`,
and the literal special set); the spec and all claim inputs are ASCII.
-/

/-- The regex class `[A-Z]`. -/
def isUpperAZ (c : Char) : Bool := 'A' ≤ c && c ≤ 'Z'

/-- The regex class `\d` on ASCII input: `[0-9]`. -/
def isDigit09 (c : Char) : Bool := '0' ≤ c && c ≤ '9'

/-- The regex class `[@$!%*?&]`. -/
def isSpecial (c : Char) : Bool :=
  (['@', '$', '!', '%', '*', '?', '&']).contains c

/-- `validate_password` from the source, by the regex semantics above. -/
def validate_password (password : String) : Bool :=
  let l := password.data
  let line := l.takeWhile (fun c => c != '\n')
  let rest := l.drop line.length
  decide (8 ≤ line.length) && (rest.isEmpty || rest == ['\n']) &&
    line.any isUpperAZ && line.any isDigit09 && line.any isSpecial

/-- The Policy Validator as the SPEC words it (§4.1 / §8): strong iff length
at least 8, and the string contains an uppercase letter, a decimal digit and
one of `@$!%*?&`.  Stated from the spec for comparison with
`validate_password`, which is translated from the source. -/
def is_strong_spec (s : String) : Bool :=
  decide (8 ≤ s.length) && s.data.any isUpperAZ && s.data.any isDigit09 &&
    s.data.any isSpecial

/-! ## Shared data model and error taxonomy -/

/-- A stored credential record: the 3-tuple
`(username, hash_password(password), datetime.now().isoformat())` the file
backend stores per service. -/
structure CredRecord where
  username : String
  secret_digest : String
  created_at : String
deriving Repr, DecidableEq

/-- Python exceptions the store can raise. -/
inductive PyError where
  /-- `ValueError(msg)`. -/
  | valueError (msg : String)
  /-- `json.JSONDecodeError` escaping `json.load`. -/
  | jsonDecodeError
deriving Repr, DecidableEq

/-- The spec's `PolicyViolation` error is the source's
`ValueError("Password does not meet strength requirements.")`. -/
def PolicyViolation : PyError :=
  .valueError "Password does not meet strength requirements."

/-- The spec's `DuplicateService` error is the source's
`ValueError("Service already exists.")`. -/
def DuplicateService : PyError :=
  .valueError "Service already exists."

/-! ## Flat-file backend (`FilePasswordManager`)

`self.passwords` is a Python dict from service to record; modelled as an
insertion-ordered association list (the code only adds keys that are not yet
present, so dict insertion is an append).  The backing JSON file is modelled
by its parse outcome: absent (`FileNotFoundError`), a valid JSON object
(carrying the mapping), or malformed content on which `json.load` raises.
-/

/-- The dict `self.passwords`. -/
abbrev PwMap := List (String × CredRecord)

/-- Contents of the backing file location, abstracted to how `json.load`
sees them: a valid serialized mapping or malformed data. -/
inductive FileData where
  /-- The file holds the JSON serialization of mapping `m`. -/
  | valid (m : PwMap)
  /-- The file exists but is not valid JSON. -/
  | invalid
deriving Repr, DecidableEq

/-- `none` models a missing file (`FileNotFoundError` on `open`). -/
abbrev FileContents := Option FileData

/-- An instance of `FilePasswordManager`: the `owner` label and the
in-memory `self.passwords` dict. -/
structure FilePasswordManager where
  owner : String
  passwords : PwMap
deriving Repr, DecidableEq

namespace FilePasswordManager

/-- `_load` from the source: return the parsed file, or `{}` when the file
is missing; any `json.JSONDecodeError` propagates. -/
def load : FileContents → Except PyError PwMap
  | none => .ok []
  | some (.valid m) => .ok m
  | some .invalid => .error .jsonDecodeError

/-- `__init__`: store the owner and set `self.passwords = self._load()`;
a `_load` exception escapes the constructor and no store is produced. -/
def init (owner : String) (file : FileContents) :
    Except PyError FilePasswordManager :=
  (load file).map fun m => ⟨owner, m⟩

/-- `add_password` from the source.  `now` is the value of
`datetime.now().isoformat()` at the call.  Returns the raised exception or
the Python return value (always `None`), together with the store and file
state after the call.  The source checks `service in self.passwords` first,
then `validate_password`, then mutates the dict and rewrites the file. -/
def add_password (mgr : FilePasswordManager)
    (service username password now : String) (file : FileContents) :
    Except PyError (Option CredRecord) × FilePasswordManager × FileContents :=
  if (mgr.passwords.find? (fun e => e.1 == service)).isSome then
    (.error (.valueError "Service already exists."), mgr, file)
  else if validate_password password = false then
    (.error (.valueError "Password does not meet strength requirements."),
     mgr, file)
  else
    let m2 := mgr.passwords ++
      [(service, ⟨username, hash_password password, now⟩)]
    (.ok none, { mgr with passwords := m2 }, some (.valid m2))

/-- `get_password` from the source: `self.passwords.get(service)`. -/
def get_password (mgr : FilePasswordManager) (service : String) :
    Option CredRecord :=
  (mgr.passwords.find? (fun e => e.1 == service)).map (fun e => e.2)

end FilePasswordManager

/-! ## Relational backend (`DatabasePasswordManager`)

The `credentials` table (no constraints, created by `_create_table`) is
modelled as a list of rows in rowid (insertion) order.  A fault of the
storage engine during the insert/commit is injected as an optional
`sqlite3.Error` message; the strings the `except` branch prints are part of
the call's result so that (non-)printing is provable. -/

/-- A row of the `credentials` table:
`(service TEXT, username TEXT, password TEXT, created_at TEXT)`. -/
structure DbRow where
  service : String
  username : String
  password : String
  created_at : String
deriving Repr, DecidableEq

/-- An instance of `DatabasePasswordManager`: the `owner` label and the
backing `credentials` table. -/
structure DatabasePasswordManager where
  owner : String
  table : List DbRow
deriving Repr, DecidableEq

namespace DatabasePasswordManager

/-- `add_password` from the source: validate, then `INSERT` inside
`try/except sqlite3.Error`; on a fault the handler prints
`"Database error:", e` and the method returns normally.  `fault` is
`some e` when the engine raises `sqlite3.Error(e)` on this statement.
Result: raised exception or return value (always `None`), the store after
the call, and the lines printed by the call. -/
def add_password (mgr : DatabasePasswordManager)
    (service username password now : String) (fault : Option String) :
    Except PyError (Option CredRecord) × DatabasePasswordManager ×
      List String :=
  if validate_password password = false then
    (.error (.valueError "Password does not meet strength requirements."),
     mgr, [])
  else
    match fault with
    | some e => (.ok none, mgr, ["Database error: " ++ e])
    | none =>
        (.ok none,
         { mgr with table := mgr.table ++
             [⟨service, username, hash_password password, now⟩] },
         [])

/-- `get_password` from the source:
`SELECT * FROM credentials WHERE service = ?` then `fetchone()`, which
yields the first matching row in rowid order, or `None`. -/
def get_password (mgr : DatabasePasswordManager) (service : String) :
    Option DbRow :=
  mgr.table.find? (fun r => r.service == service)

end DatabasePasswordManager

/-! ## Helper lemmas -/

/-- On a newline-free character list, `takeWhile (· != '\n')` keeps
everything. -/
theorem takeWhile_ne_newline {l : List Char} (h : '\n' ∉ l) :
    l.takeWhile (fun c => c != '\n') = l := by
  induction l with
  | nil => rfl
  | cons a l ih =>
      rw [List.takeWhile_cons]
      have ha : (a != '\n') = true := by
        simp only [bne_iff_ne, ne_eq]
        intro e
        exact h (e ▸ List.mem_cons_self a l)
      rw [ha]
      simp only [if_true]
      rw [ih (fun hm => h (List.mem_cons_of_mem _ hm))]

/-- `validate_password` with its local bindings expanded. -/
theorem validate_password_def (s : String) :
    validate_password s =
      (decide (8 ≤ (s.data.takeWhile (fun c => c != '\n')).length) &&
       ((s.data.drop (s.data.takeWhile (fun c => c != '\n')).length).isEmpty ||
        s.data.drop (s.data.takeWhile (fun c => c != '\n')).length == ['\n']) &&
       (s.data.takeWhile (fun c => c != '\n')).any isUpperAZ &&
       (s.data.takeWhile (fun c => c != '\n')).any isDigit09 &&
       (s.data.takeWhile (fun c => c != '\n')).any isSpecial) := rfl

/-- Characterization of a successful `FilePasswordManager.add_password`
call: the service was absent, the password validated, the return value is
`None`, the new mapping appends the digested record, and the file holds its
serialization. -/
theorem file_add_ok_iff (mgr : FilePasswordManager) (s u p now : String)
    (file : FileContents) (ret : Option CredRecord)
    (mgr2 : FilePasswordManager) (file2 : FileContents) :
    mgr.add_password s u p now file = (.ok ret, mgr2, file2) ↔
      mgr.passwords.find? (fun e => e.1 == s) = none ∧
      validate_password p = true ∧ ret = none ∧
      mgr2 = ⟨mgr.owner, mgr.passwords ++ [(s, ⟨u, hash_password p, now⟩)]⟩ ∧
      file2 = some (.valid
        (mgr.passwords ++ [(s, ⟨u, hash_password p, now⟩)])) := by
  constructor
  · intro h
    unfold FilePasswordManager.add_password at h
    by_cases hf : (mgr.passwords.find? (fun e => e.1 == s)).isSome = true
    · rw [if_pos hf] at h
      simp at h
    · rw [if_neg hf] at h
      by_cases hv : validate_password p = false
      · rw [if_pos hv] at h
        simp at h
      · rw [if_neg hv] at h
        simp only [Prod.mk.injEq, Except.ok.injEq] at h
        obtain ⟨h1, h2, h3⟩ := h
        refine ⟨Option.not_isSome_iff_eq_none.1 hf, ?_, h1.symm, h2.symm, h3.symm⟩
        cases hb : validate_password p with
        | false => exact absurd hb hv
        | true => rfl
  · rintro ⟨hf, hv, rfl, rfl, rfl⟩
    unfold FilePasswordManager.add_password
    rw [if_neg (by simp [hf]), if_neg (by simp [hv])]

/-- Characterization of a successful fault-free
`DatabasePasswordManager.add_password` call. -/
theorem db_add_ok_nofault_iff (mgr : DatabasePasswordManager)
    (s u p now : String) (ret : Option CredRecord)
    (mgr2 : DatabasePasswordManager) (out : List String) :
    mgr.add_password s u p now none = (.ok ret, mgr2, out) ↔
      validate_password p = true ∧ ret = none ∧
      mgr2 = ⟨mgr.owner, mgr.table ++ [⟨s, u, hash_password p, now⟩]⟩ ∧
      out = [] := by
  constructor
  · intro h
    unfold DatabasePasswordManager.add_password at h
    by_cases hv : validate_password p = false
    · rw [if_pos hv] at h
      simp at h
    · rw [if_neg hv] at h
      simp only [Prod.mk.injEq, Except.ok.injEq] at h
      obtain ⟨h1, h2, h3⟩ := h
      refine ⟨?_, h1.symm, h2.symm, h3.symm⟩
      cases hb : validate_password p with
      | false => exact absurd hb hv
      | true => rfl
  · rintro ⟨hv, rfl, rfl, rfl⟩
    unfold DatabasePasswordManager.add_password
    rw [if_neg (by simp [hv])]

/-! ## Claims -/

/-- C2 (counterexample): the claimed iff fails as stated.  The string
`"Abcdef1!\nx"` has length ≥ 8, an uppercase letter, a digit and a special
character — the spec-side rule accepts it — but `validate_password`
rejects it, because `.` in the regex never matches a newline. -/
theorem validate_password_newline_counterexample :
    is_strong_spec "Abcdef1!\nx" = true ∧
    validate_password "Abcdef1!\nx" = false := by
  exact ⟨by decide, by decide⟩

/-- C2 (amended): on every string with no newline character,
`validate_password` agrees exactly with the spec's strength rule
(length ≥ 8, an uppercase letter, a digit, one of `@$!%*?&`); moreover the
empty string always fails. -/
theorem validate_password_matches_spec_newline_free :
    (∀ s : String, '\n' ∉ s.data →
      validate_password s = is_strong_spec s) ∧
    validate_password "" = false := by
  refine ⟨fun s hs => ?_, by decide⟩
  have hlen : String.length s = s.data.length := rfl
  rw [validate_password_def, takeWhile_ne_newline hs, List.drop_length]
  unfold is_strong_spec
  rw [hlen]
  simp only [List.isEmpty_nil, Bool.true_or, Bool.and_true]

/-- C2 (witness): the amended equivalence applied at `"Abcdef1!"`. -/
theorem validate_password_matches_spec_newline_free_witness :
    validate_password "Abcdef1!" = is_strong_spec "Abcdef1!" ∧
    validate_password "Abcdef1!" = true :=
  ⟨validate_password_matches_spec_newline_free.1 "Abcdef1!" (by decide),
   by decide⟩

/-- C3: at a concrete relational `add_credential` call on which the storage
engine raises `sqlite3.Error`, the code returns normally (`.ok none` — no
`BackendFailure` reaches the caller) and prints a line, contradicting the
claim; the claim matches the spec's stated intent, so the code is the bug. -/
theorem db_add_password_swallows_fault :
    DatabasePasswordManager.add_password ⟨"o", []⟩ "svc" "user" "Abcdef1!"
      "2024-01-01T00:00:00" (some "disk I/O error")
      = (.ok none, ⟨"o", []⟩, ["Database error: disk I/O error"]) := by
  rfl

/-- C7: `get_password` for a service with no stored record returns `None`
(an explicit absence, not an exception — both embeddings are total functions
into `Option`) on the flat-file and the relational backend. -/
theorem get_password_absent_none :
    (∀ (mgr : FilePasswordManager) (service : String),
      (∀ e ∈ mgr.passwords, e.1 ≠ service) →
      mgr.get_password service = none) ∧
    (∀ (mgr : DatabasePasswordManager) (service : String),
      (∀ r ∈ mgr.table, r.service ≠ service) →
      mgr.get_password service = none) := by
  constructor
  · intro mgr service h
    have hf : mgr.passwords.find? (fun e => e.1 == service) = none :=
      List.find?_eq_none.2 (fun e he => by simpa using h e he)
    simp [FilePasswordManager.get_password, hf]
  · intro mgr service h
    have hf : mgr.table.find? (fun r => r.service == service) = none :=
      List.find?_eq_none.2 (fun r hr => by simpa using h r hr)
    simp [DatabasePasswordManager.get_password, hf]

/-- C7 (witness): lookups of an absent service on concrete non-empty
stores. -/
theorem get_password_absent_none_witness :
    FilePasswordManager.get_password
        ⟨"o", [("mail", ⟨"u", "d", "t"⟩)]⟩ "bank" = none ∧
    DatabasePasswordManager.get_password
        ⟨"o", [⟨"mail", "u", "d", "t"⟩]⟩ "bank" = none :=
  ⟨get_password_absent_none.1 ⟨"o", [("mail", ⟨"u", "d", "t"⟩)]⟩ "bank"
      (by decide),
   get_password_absent_none.2 ⟨"o", [⟨"mail", "u", "d", "t"⟩]⟩ "bank"
      (by decide)⟩

/-- C10: constructing a flat-file store over an existing file that is not
valid JSON raises (`json.JSONDecodeError` propagates out of `_load`, so no
store is produced), while a missing file yields the empty mapping. -/
theorem init_file_load_behavior :
    (∀ owner : String,
      FilePasswordManager.init owner (some .invalid)
        = .error .jsonDecodeError) ∧
    (∀ owner : String,
      FilePasswordManager.init owner none = .ok ⟨owner, []⟩) ∧
    (∀ (owner : String) (m : PwMap),
      FilePasswordManager.init owner (some (.valid m)) = .ok ⟨owner, m⟩) :=
  ⟨fun _ => rfl, fun _ => rfl, fun _ _ => rfl⟩

/-- C1 (counterexample): a concrete successful `add_password` call.  The
digest is computed, `created_at` is assigned, the record is persisted — but
the Python return value is `None`, not the record, so the claim's "returns
that record to the caller" is false on the code. -/
theorem add_password_returns_none_counterexample :
    FilePasswordManager.add_password ⟨"own", []⟩ "email" "alice" "Abcdef1!"
        "2024-01-01T00:00:00" none
      = (.ok none,
         ⟨"own", [("email",
            ⟨"alice", hash_password "Abcdef1!", "2024-01-01T00:00:00"⟩)]⟩,
         some (.valid [("email",
            ⟨"alice", hash_password "Abcdef1!", "2024-01-01T00:00:00"⟩)])) ∧
    (none : Option CredRecord)
      ≠ some ⟨"alice", hash_password "Abcdef1!", "2024-01-01T00:00:00"⟩ :=
  ⟨rfl, by simp⟩

/-- C1 (amended): on both backends, every successful `add_password` call
computes the secret digest, assigns `created_at` to the current time, and
persists the record — but returns `None` rather than the record. -/
theorem add_password_success_shape :
    (∀ (mgr : FilePasswordManager) (service username password now : String)
        (file : FileContents) (ret : Option CredRecord)
        (mgr2 : FilePasswordManager) (file2 : FileContents),
      mgr.add_password service username password now file
          = (.ok ret, mgr2, file2) →
      mgr2.passwords = mgr.passwords ++
          [(service, ⟨username, hash_password password, now⟩)] ∧
        file2 = some (.valid mgr2.passwords) ∧ ret = none) ∧
    (∀ (mgr : DatabasePasswordManager) (service username password now : String)
        (ret : Option CredRecord) (mgr2 : DatabasePasswordManager)
        (out : List String),
      mgr.add_password service username password now none
          = (.ok ret, mgr2, out) →
      mgr2.table = mgr.table ++
          [⟨service, username, hash_password password, now⟩] ∧ ret = none) := by
  constructor
  · intro mgr service username password now file ret mgr2 file2 h
    obtain ⟨-, -, hret, hmgr2, hfile2⟩ := (file_add_ok_iff _ _ _ _ _ _ _ _ _).1 h
    subst hmgr2
    exact ⟨rfl, hfile2, hret⟩
  · intro mgr service username password now ret mgr2 out h
    obtain ⟨-, hret, hmgr2, -⟩ := (db_add_ok_nofault_iff _ _ _ _ _ _ _ _).1 h
    subst hmgr2
    exact ⟨rfl, hret⟩

/-- C1 (witness): the amended statement applied to concrete successful
calls on the empty stores of both backends. -/
theorem add_password_success_shape_witness :
    ((FilePasswordManager.mk "own"
        [("pay", ⟨"bob", hash_password "Xy1$aaaa", "T1"⟩)]).passwords
      = ([] : PwMap) ++ [("pay", ⟨"bob", hash_password "Xy1$aaaa", "T1"⟩)] ∧
     (some (FileData.valid
        [("pay", ⟨"bob", hash_password "Xy1$aaaa", "T1"⟩)]) : FileContents)
      = some (.valid (FilePasswordManager.mk "own"
          [("pay", ⟨"bob", hash_password "Xy1$aaaa", "T1"⟩)]).passwords) ∧
     (none : Option CredRecord) = none) ∧
    ((DatabasePasswordManager.mk "own"
        [⟨"pay", "bob", hash_password "Xy1$aaaa", "T1"⟩]).table
      = ([] : List DbRow) ++ [⟨"pay", "bob", hash_password "Xy1$aaaa", "T1"⟩] ∧
     (none : Option CredRecord) = none) :=
  ⟨add_password_success_shape.1 ⟨"own", []⟩ "pay" "bob" "Xy1$aaaa" "T1" none
      none _ _ rfl,
   add_password_success_shape.2 ⟨"own", []⟩ "pay" "bob" "Xy1$aaaa" "T1" none
      _ _ rfl⟩

/-- C4 (counterexample): on the flat-file backend the duplicate check runs
before validation, so a call with an already-stored service and a weak
secret fails with `DuplicateService`, not `PolicyViolation`. -/
theorem duplicate_checked_before_policy_counterexample :
    (FilePasswordManager.add_password ⟨"o", [("svc", ⟨"u0", "d0", "t0"⟩)]⟩
        "svc" "u" "weakpass" "T" none).1
      = .error DuplicateService ∧
    validate_password "weakpass" = false ∧
    DuplicateService ≠ PolicyViolation :=
  ⟨rfl, by decide, by decide⟩

/-- C4 (amended): a rejected secret always fails with `PolicyViolation` on
the relational backend; on the flat-file backend it does so provided the
service is not already stored (the source checks duplicates first). -/
theorem policy_violation_on_reject :
    (∀ (mgr : DatabasePasswordManager) (service username password now : String)
        (fault : Option String),
      validate_password password = false →
      (mgr.add_password service username password now fault).1
        = .error PolicyViolation) ∧
    (∀ (mgr : FilePasswordManager) (service username password now : String)
        (file : FileContents),
      validate_password password = false →
      mgr.passwords.find? (fun e => e.1 == service) = none →
      (mgr.add_password service username password now file).1
        = .error PolicyViolation) := by
  constructor
  · intro mgr service username password now fault hv
    simp [DatabasePasswordManager.add_password, hv, PolicyViolation]
  · intro mgr service username password now file hv hf
    simp [FilePasswordManager.add_password, hf, hv, PolicyViolation]

/-- C4 (witness): the amended statement at a concrete weak secret on both
backends. -/
theorem policy_violation_on_reject_witness :
    (DatabasePasswordManager.add_password ⟨"o", []⟩ "svc" "u" "weakpass"
        "T" none).1 = .error PolicyViolation ∧
    (FilePasswordManager.add_password ⟨"o", []⟩ "svc" "u" "weakpass"
        "T" none).1 = .error PolicyViolation :=
  ⟨policy_violation_on_reject.1 ⟨"o", []⟩ "svc" "u" "weakpass" "T" none
      (by decide),
   policy_violation_on_reject.2 ⟨"o", []⟩ "svc" "u" "weakpass" "T" none
      (by decide) rfl⟩

/-- C5: flat-file `service` uniqueness.  Every successful `add_password`
preserves distinctness of the stored service keys, and from any state not
yet containing the service, the first of two same-service calls with strong
secrets succeeds, the second raises `DuplicateService`, and the stored
record remains the first one. -/
theorem flatfile_service_unique :
    (∀ (mgr : FilePasswordManager) (service username password now : String)
        (file : FileContents) (ret : Option CredRecord)
        (mgr2 : FilePasswordManager) (file2 : FileContents),
      (mgr.passwords.map Prod.fst).Nodup →
      mgr.add_password service username password now file
          = (.ok ret, mgr2, file2) →
      (mgr2.passwords.map Prod.fst).Nodup) ∧
    (∀ (mgr : FilePasswordManager)
        (service u1 p1 u2 p2 now1 now2 : String) (file : FileContents),
      mgr.passwords.find? (fun e => e.1 == service) = none →
      validate_password p1 = true → validate_password p2 = true →
      ∃ (mgr2 : FilePasswordManager) (file2 : FileContents),
        mgr.add_password service u1 p1 now1 file = (.ok none, mgr2, file2) ∧
        (mgr2.add_password service u2 p2 now2 file2).1
          = .error DuplicateService ∧
        mgr2.get_password service = some ⟨u1, hash_password p1, now1⟩) := by
  constructor
  · intro mgr service username password now file ret mgr2 file2 hnd h
    obtain ⟨hf, -, -, hmgr2, -⟩ := (file_add_ok_iff _ _ _ _ _ _ _ _ _).1 h
    subst hmgr2
    simp only [List.map_append, List.map_cons, List.map_nil]
    rw [List.nodup_append]
    refine ⟨hnd, List.nodup_singleton service, ?_⟩
    intro a ha hb
    simp only [List.mem_singleton] at hb
    subst hb
    rw [List.find?_eq_none] at hf
    obtain ⟨⟨k, v⟩, hkv, hfst⟩ := List.mem_map.1 ha
    have hk : k = a := hfst
    exact hf ⟨k, v⟩ hkv (by simp [hk])
  · intro mgr service u1 p1 u2 p2 now1 now2 file hf hv1 hv2
    refine ⟨⟨mgr.owner,
        mgr.passwords ++ [(service, ⟨u1, hash_password p1, now1⟩)]⟩,
      some (.valid
        (mgr.passwords ++ [(service, ⟨u1, hash_password p1, now1⟩)])), ?_, ?_, ?_⟩
    · exact (file_add_ok_iff _ _ _ _ _ _ _ _ _).2 ⟨hf, hv1, rfl, rfl, rfl⟩
    · have hfind : (mgr.passwords ++
          [(service, (⟨u1, hash_password p1, now1⟩ : CredRecord))]).find?
            (fun e => e.1 == service)
          = some (service, ⟨u1, hash_password p1, now1⟩) := by
        rw [List.find?_append, hf, Option.none_or]
        exact List.find?_cons_of_pos _ (by simp)
      simp [FilePasswordManager.add_password, hfind, DuplicateService]
    · have hfind : (mgr.passwords ++
          [(service, (⟨u1, hash_password p1, now1⟩ : CredRecord))]).find?
            (fun e => e.1 == service)
          = some (service, ⟨u1, hash_password p1, now1⟩) := by
        rw [List.find?_append, hf, Option.none_or]
        exact List.find?_cons_of_pos _ (by simp)
      simp [FilePasswordManager.get_password, hfind]

/-- C5 (witness): the double-add scenario run from the empty store. -/
theorem flatfile_service_unique_witness :
    ∃ (mgr2 : FilePasswordManager) (file2 : FileContents),
      FilePasswordManager.add_password ⟨"o", []⟩ "bank" "alice" "Abcdef1!"
          "T1" none = (.ok none, mgr2, file2) ∧
      (mgr2.add_password "bank" "erin" "Qr7%stuv" "T2" file2).1
        = .error DuplicateService ∧
      mgr2.get_password "bank" = some ⟨"alice", hash_password "Abcdef1!", "T1"⟩ :=
  flatfile_service_unique.2 ⟨"o", []⟩ "bank" "alice" "Abcdef1!" "erin"
    "Qr7%stuv" "T1" "T2" none rfl (by decide) (by decide)

/-- C6 (counterexample): on the flat-file backend, when the service is
already stored, a weak-secret call fails with `DuplicateService`, not
`PolicyViolation`, so "produces PolicyViolation both times" fails as
stated (the store is still unchanged). -/
theorem weak_duplicate_counterexample :
    FilePasswordManager.add_password ⟨"o", [("mail", ⟨"u0", "d0", "t0"⟩)]⟩
        "mail" "u1" "weak1234" "T"
        (some (.valid [("mail", ⟨"u0", "d0", "t0"⟩)]))
      = (.error DuplicateService, ⟨"o", [("mail", ⟨"u0", "d0", "t0"⟩)]⟩,
         some (.valid [("mail", ⟨"u0", "d0", "t0"⟩)])) ∧
    validate_password "weak1234" = false ∧
    DuplicateService ≠ PolicyViolation :=
  ⟨rfl, by decide, by decide⟩

/-- C6 (amended): every `add_password` call failing with `PolicyViolation`
leaves the backing store unchanged, on either backend; and two calls with
the same weak secret produce `PolicyViolation` both times and persist
nothing — unconditionally on the relational backend, and provided the
service is not already stored on the flat-file backend (otherwise that
backend reports `DuplicateService` first, still persisting nothing). -/
theorem policy_failure_state_unchanged :
    (∀ (mgr : FilePasswordManager) (service username password now : String)
        (file : FileContents),
      (mgr.add_password service username password now file).1
          = .error PolicyViolation →
      mgr.add_password service username password now file
        = (.error PolicyViolation, mgr, file)) ∧
    (∀ (mgr : DatabasePasswordManager) (service username password now : String)
        (fault : Option String),
      (mgr.add_password service username password now fault).1
          = .error PolicyViolation →
      mgr.add_password service username password now fault
        = (.error PolicyViolation, mgr, [])) ∧
    (∀ (mgr : FilePasswordManager) (service u1 u2 now1 now2 password : String)
        (file : FileContents),
      validate_password password = false →
      mgr.passwords.find? (fun e => e.1 == service) = none →
      mgr.add_password service u1 password now1 file
          = (.error PolicyViolation, mgr, file) ∧
        mgr.add_password service u2 password now2 file
          = (.error PolicyViolation, mgr, file)) ∧
    (∀ (mgr : DatabasePasswordManager)
        (service u1 u2 now1 now2 password : String)
        (fault1 fault2 : Option String),
      validate_password password = false →
      mgr.add_password service u1 password now1 fault1
          = (.error PolicyViolation, mgr, []) ∧
        mgr.add_password service u2 password now2 fault2
          = (.error PolicyViolation, mgr, [])) := by
  refine ⟨?_, ?_, ?_, ?_⟩
  · intro mgr service username password now file h
    unfold FilePasswordManager.add_password at h ⊢
    by_cases hf : (mgr.passwords.find? (fun e => e.1 == service)).isSome = true
    · rw [if_pos hf] at h
      simp [PolicyViolation] at h
    · rw [if_neg hf] at h ⊢
      by_cases hv : validate_password password = false
      · rw [if_pos hv]
        rfl
      · rw [if_neg hv] at h
        simp [PolicyViolation] at h
  · intro mgr service username password now fault h
    unfold DatabasePasswordManager.add_password at h ⊢
    by_cases hv : validate_password password = false
    · rw [if_pos hv]
      rfl
    · rw [if_neg hv] at h
      cases fault with
      | some e => exact absurd h (by simp [PolicyViolation])
      | none => exact absurd h (by simp [PolicyViolation])
  · intro mgr service u1 u2 now1 now2 password file hv hf
    constructor <;>
      simp [FilePasswordManager.add_password, hf, hv, PolicyViolation]
  · intro mgr service u1 u2 now1 now2 password fault1 fault2 hv
    constructor <;>
      simp [DatabasePasswordManager.add_password, hv, PolicyViolation]

/-- C6 (witness): two same-weak-secret calls on the empty store of each
backend, both rejected with `PolicyViolation` and persisting nothing. -/
theorem policy_failure_state_unchanged_witness :
    (FilePasswordManager.add_password ⟨"o", []⟩ "docs" "u1" "pw123456" "T1"
          none = (.error PolicyViolation, ⟨"o", []⟩, none) ∧
      FilePasswordManager.add_password ⟨"o", []⟩ "docs" "u2" "pw123456" "T2"
          none = (.error PolicyViolation, ⟨"o", []⟩, none)) ∧
    (DatabasePasswordManager.add_password ⟨"o", []⟩ "docs" "u1" "pw123456"
          "T1" none = (.error PolicyViolation, ⟨"o", []⟩, []) ∧
      DatabasePasswordManager.add_password ⟨"o", []⟩ "docs" "u2" "pw123456"
          "T2" none = (.error PolicyViolation, ⟨"o", []⟩, [])) :=
  ⟨policy_failure_state_unchanged.2.2.1 ⟨"o", []⟩ "docs" "u1" "u2" "T1" "T2"
      "pw123456" none (by decide) rfl,
   policy_failure_state_unchanged.2.2.2 ⟨"o", []⟩ "docs" "u1" "u2" "T1" "T2"
      "pw123456" none none (by decide)⟩

/-- C8: flat-file round-trip.  After a successful `add_password`, a store
freshly constructed from the written file returns, for that service, a
record whose username is the stored username and whose digest is
`hash_password` of the original secret. -/
theorem flatfile_round_trip :
    ∀ (mgr : FilePasswordManager) (service username password now : String)
      (file : FileContents) (ret : Option CredRecord)
      (mgr2 : FilePasswordManager) (file2 : FileContents) (owner2 : String)
      (mgr3 : FilePasswordManager),
      mgr.add_password service username password now file
          = (.ok ret, mgr2, file2) →
      FilePasswordManager.init owner2 file2 = .ok mgr3 →
      mgr3.get_password service
        = some ⟨username, hash_password password, now⟩ := by
  intro mgr service username password now file ret mgr2 file2 owner2 mgr3 h hinit
  obtain ⟨hf, -, -, hmgr2, hfile2⟩ := (file_add_ok_iff _ _ _ _ _ _ _ _ _).1 h
  subst hfile2
  have hmgr3 : mgr3 = ⟨owner2,
      mgr.passwords ++ [(service, ⟨username, hash_password password, now⟩)]⟩ := by
    have h' : (.ok (⟨owner2,
        mgr.passwords ++ [(service, ⟨username, hash_password password, now⟩)]⟩
          : FilePasswordManager) : Except PyError FilePasswordManager)
        = .ok mgr3 := hinit
    injection h' with h3
    exact h3.symm
  subst hmgr3
  have hfind : (mgr.passwords ++
      [(service, (⟨username, hash_password password, now⟩ : CredRecord))]).find?
        (fun e => e.1 == service)
      = some (service, ⟨username, hash_password password, now⟩) := by
    rw [List.find?_append, hf, Option.none_or]
    exact List.find?_cons_of_pos _ (by simp)
  simp [FilePasswordManager.get_password, hfind]

/-- C8 (witness): the spec's round-trip test, from the empty store. -/
theorem flatfile_round_trip_witness :
    FilePasswordManager.get_password
        ⟨"o2", [("svc", ⟨"user", hash_password "Abcdef1!", "T"⟩)]⟩ "svc"
      = some ⟨"user", hash_password "Abcdef1!", "T"⟩ :=
  flatfile_round_trip ⟨"o", []⟩ "svc" "user" "Abcdef1!" "T" none none
    ⟨"o", [("svc", ⟨"user", hash_password "Abcdef1!", "T"⟩)]⟩
    (some (.valid [("svc", ⟨"user", hash_password "Abcdef1!", "T"⟩)])) "o2"
    ⟨"o2", [("svc", ⟨"user", hash_password "Abcdef1!", "T"⟩)]⟩ rfl rfl

/-- C9: the relational backend enforces no `service` uniqueness — two
successive fault-free `add_password` calls with the same service and strong
secrets both succeed, after which the table holds two more rows for that
service. -/
theorem db_duplicate_service_allowed :
    ∀ (mgr : DatabasePasswordManager)
      (service u1 p1 u2 p2 now1 now2 : String),
      validate_password p1 = true → validate_password p2 = true →
      ∃ (mgr2 mgr3 : DatabasePasswordManager),
        mgr.add_password service u1 p1 now1 none = (.ok none, mgr2, []) ∧
        mgr2.add_password service u2 p2 now2 none = (.ok none, mgr3, []) ∧
        (mgr3.table.filter (fun r => r.service == service)).length
          = (mgr.table.filter (fun r => r.service == service)).length + 2 := by
  intro mgr service u1 p1 u2 p2 now1 now2 hv1 hv2
  refine ⟨⟨mgr.owner, mgr.table ++ [⟨service, u1, hash_password p1, now1⟩]⟩,
    ⟨mgr.owner, (mgr.table ++ [⟨service, u1, hash_password p1, now1⟩]) ++
      [⟨service, u2, hash_password p2, now2⟩]⟩, ?_, ?_, ?_⟩
  · exact (db_add_ok_nofault_iff _ _ _ _ _ _ _ _).2 ⟨hv1, rfl, rfl, rfl⟩
  · exact (db_add_ok_nofault_iff _ _ _ _ _ _ _ _).2 ⟨hv2, rfl, rfl, rfl⟩
  · simp [List.filter_append]

/-- C9 (witness): the double insert on the empty relational store leaves
two rows for the service. -/
theorem db_duplicate_service_allowed_witness :
    ∃ (mgr2 mgr3 : DatabasePasswordManager),
      DatabasePasswordManager.add_password ⟨"o", []⟩ "svc" "u1" "Abcdef1!"
          "T1" none = (.ok none, mgr2, []) ∧
      mgr2.add_password "svc" "u2" "Qr7%stuv" "T2" none
        = (.ok none, mgr3, []) ∧
      (mgr3.table.filter (fun r => r.service == "svc")).length
        = ((⟨"o", []⟩ : DatabasePasswordManager).table.filter
            (fun r => r.service == "svc")).length + 2 :=
  db_duplicate_service_allowed ⟨"o", []⟩ "svc" "u1" "Abcdef1!" "u2"
    "Qr7%stuv" "T1" "T2" (by decide) (by decide)
